import Mathlib

/-!
Shallow embedding of `src/main.py` (Bosankai API): a FastAPI + SQLite backend
storing visit logs, donations, memorial "memory" items and comments, scoped by
a community id, with media files saved under a `/media` static mount.

Modelling conventions:
* SQLite tables are Lean lists of row structures; `INSERT` appends at the end,
  so list order is rowid (insertion) order, which is what an un-`ORDER BY`ed
  `SELECT` returns.
* `ORDER BY` is modelled by an insertion sort with the corresponding boolean
  comparator (SQLite compares `TEXT` by bytes; on UTF-8 that is code-point
  order, i.e. Lean's lexicographic `String` order).
* The media filesystem is an association list from URL path to bytes; writing
  prepends, so a read finds the most recent write (Python `open(..., "wb")`
  truncates and overwrites).  The `/media` static mount serves `MEDIA_ROOT`,
  so the URL returned at creation time is exactly the retrieval reference.
* `uuid.uuid4().hex` draws are modelled by a stream `uuidHex : Nat → String`
  supplied to each handler; draws are consumed in program order.
  `datetime.utcnow().isoformat()` is the handler parameter `now`.
* FastAPI `Form`/`File` strings arrive as `String`s (`Form("")` defaults make
  the omitted-value case the empty string); `UploadFile.filename` and
  `UploadFile.content_type` are `Option String` since Python reads them
  through `x or ""` / truthiness checks.
-/

namespace Bosankai

/-- Bytes of an uploaded or stored file. -/
abbrev Bytes := List Nat

/-- Python `x or ""` on an optional string: `None` and `""` both give `""`. -/
def pyStr (o : Option String) : String :=
  match o with
  | none => ""
  | some s => s

/-- Python `x or None` on a string: the empty string becomes `None`. -/
def pyOrNone (s : String) : Option String :=
  if s = "" then none else some s

/-- Python `int(amount or 0)` for `amount : Optional[int]`: `None` (and `0`
itself) give `0`. -/
def pyIntOr (a : Option Int) : Int :=
  match a with
  | none => 0
  | some n => n

/-- Python string slicing `s[:n]` (by code points). -/
def pyTake (s : String) (n : Nat) : String :=
  String.mk (s.toList.take n)

/-- Python `str.lower()` (ASCII case folding suffices for our inputs). -/
def pyLower (s : String) : String :=
  String.mk (s.toList.map Char.toLower)

/-- Python `s.replace("/", "_")`: every slash becomes an underscore. -/
def pyReplaceSlash (s : String) : String :=
  String.mk (s.toList.map (fun c => if c = '/' then '_' else c))

/-- Python `s.startswith(p)`. -/
def pyStartsWith (s p : String) : Bool :=
  decide (s.toList.take p.toList.length = p.toList)

/-- The extension part (with its leading dot) of `os.path.splitext(p)`:
the suffix from the last dot of the basename (the characters after the last
slash), except that leading dots of the basename never start an
extension. -/
def splitextExt (p : String) : String :=
  let base := (p.toList.reverse.takeWhile (fun c => c ≠ '/')).reverse
  let rest := base.dropWhile (fun c => c = '.')
  if rest.contains '.' then
    String.mk ('.' :: (rest.reverse.takeWhile (fun c => c ≠ '.')).reverse)
  else ""

/-- The media filesystem: URL path to bytes, most recent write first. -/
abbrev FS := List (String × Bytes)

/-- Writing a file (Python `open(path, "wb")` + `write`): prepend, shadowing
any earlier content at the same path. -/
def fsWrite (fs : FS) (path : String) (b : Bytes) : FS :=
  (path, b) :: fs

/-- Reading the current content at a path (what the `/media` static mount
would serve). -/
def fsRead : FS → String → Option Bytes
  | [], _ => none
  | (p, b) :: rest, path => if p = path then some b else fsRead rest path

/-- An uploaded file as a FastAPI handler sees it. -/
structure UploadFile where
  filename : Option String
  content_type : Option String
  content : Bytes
deriving DecidableEq

/-- The extension the upload helpers compute: `splitext` extension, the given
fallback when empty, then lowercased. -/
def uploadExt (filename : String) (fallback : String) : String :=
  pyLower (if splitextExt filename = "" then fallback else splitextExt filename)

/-- Translation of `save_upload_file` (src/main.py:119-144).  `uuidHexTok` is
this call's `uuid.uuid4().hex` draw; the code keeps its first 8 characters as
the filename token.  Returns the `/media/...` URL path and the filesystem
after the write. -/
def save_upload_file (fs : FS) (uuidHexTok : String) (upload : UploadFile)
    (subdir pfx : String) : String × FS :=
  let ext := uploadExt (pyStr upload.filename) ".bin"
  let safe := pyReplaceSlash pfx
  let token := pyTake uuidHexTok 8
  let url := ("/media/" ++ subdir ++ "/" ++ safe ++ "_") ++ (token ++ ext)
  (url, fsWrite fs url upload.content)

/-- Translation of `save_community_avatar` (src/main.py:147-163): the stored
filename is the community id (slashes replaced) plus the upload's extension,
with fallback `.jpg`; an existing file at that path is overwritten. -/
def save_community_avatar (fs : FS) (upload : UploadFile)
    (community_id : String) : String × FS :=
  let ext := uploadExt (pyStr upload.filename) ".jpg"
  let safe_id := pyReplaceSlash community_id
  let url := "/media/community_avatars/" ++ (safe_id ++ ext)
  (url, fsWrite fs url upload.content)

/-- Row of the `visits` table.  The `message` column is nullable in SQL but
its only writer (`create_visit`) always inserts a string, so reachable rows
hold strings. -/
structure VisitRow where
  id : String
  community_id : String
  visit_date : String
  visitor_name : String
  kind : String
  message : String
  created_at : String
deriving DecidableEq

/-- Row of the `visit_media` / `memory_media` tables (identical shape;
`owner_id` is `visit_id` resp. `memory_id`). -/
structure MediaRow where
  id : String
  owner_id : String
  media_type : String
  file_path : String
deriving DecidableEq

/-- Row of the `donations` table (nullable columns hold strings for the same
reason as `VisitRow.message`). -/
structure DonationRow where
  id : String
  community_id : String
  visit_id : String
  donor_name : String
  amount : Int
  message : String
  created_at : String
deriving DecidableEq

/-- Row of the `memories` table. -/
structure MemoryRow where
  id : String
  community_id : String
  title : String
  description : String
  created_at : String
  created_by : String
deriving DecidableEq

/-- Row of the `memory_comments` table. -/
structure MemoryCommentRow where
  id : String
  community_id : String
  memory_id : String
  author_name : String
  message : String
  created_at : String
deriving DecidableEq

/-- The SQLite database state: one list per table, in rowid order. -/
structure DB where
  visits : List VisitRow
  visit_media : List MediaRow
  donations : List DonationRow
  memories : List MemoryRow
  memory_media : List MediaRow
  memory_comments : List MemoryCommentRow
deriving DecidableEq

/-- Whole-system state: database plus media filesystem. -/
structure St where
  db : DB
  fs : FS
deriving DecidableEq

/-- An `HTTPException` raised by a handler. -/
structure HttpError where
  status : Nat
  detail : String
deriving DecidableEq

/-- `VisitMediaOut` / `MemoryMediaOut` (identical Pydantic models). -/
structure MediaOut where
  media_type : String
  url : String
deriving DecidableEq

/-- Pydantic `VisitOut`. -/
structure VisitOut where
  id : String
  community_id : String
  visit_date : String
  visitor_name : String
  kind : String
  message : Option String
  created_at : String
  media : List MediaOut
deriving DecidableEq

/-- Pydantic `DonationOut`. -/
structure DonationOut where
  id : String
  community_id : String
  visit_id : String
  donor_name : Option String
  amount : Int
  message : Option String
  created_at : String
deriving DecidableEq

/-- Pydantic `MemoryOut`. -/
structure MemoryOut where
  id : String
  community_id : String
  title : String
  description : Option String
  created_at : String
  created_by : Option String
  media : List MediaOut
deriving DecidableEq

/-- Pydantic `MemoryCommentOut`. -/
structure MemoryCommentOut where
  id : String
  community_id : String
  memory_id : String
  author_name : Option String
  message : String
  created_at : String
deriving DecidableEq

/-- Response body of `upload_community_avatar`. -/
structure AvatarOut where
  community_id : String
  photo_url : String
deriving DecidableEq

/-- Media kind as the handlers compute it (src/main.py:265-266 and 455-456):
`content_type = up.content_type or ""`, then `"video"` exactly when it starts
with `"video/"`, else `"image"`.  The filename is never consulted. -/
def mediaTypeOf (content_type : Option String) : String :=
  if pyStartsWith (pyStr content_type) "video/" then "video" else "image"

/-- The shared media-upload loop of `create_visit` (src/main.py:260-276) and
`create_memory` (450-466): files with falsy filenames are skipped; for each
kept file the code draws one uuid for the saved filename's token and one for
the media row id (stream indices `k` and `k+1`).  Returns the media rows, the
response entries, the filesystem after the writes, and the next stream
index. -/
def mediaLoop (subdir : String) (fs : FS) (uuidHex : Nat → String) (k : Nat)
    (owner : String) :
    List UploadFile → List MediaRow × List MediaOut × FS × Nat
  | [] => ([], [], fs, k)
  | up :: rest =>
    if pyStr up.filename = "" then mediaLoop subdir fs uuidHex k owner rest
    else
      let mtype := mediaTypeOf up.content_type
      let su := save_upload_file fs (uuidHex k) up subdir owner
      let restRes := mediaLoop subdir su.2 uuidHex (k + 2) owner rest
      (⟨uuidHex (k + 1), owner, mtype, su.1⟩ :: restRes.1,
       ⟨mtype, su.1⟩ :: restRes.2.1, restRes.2.2.1, restRes.2.2.2)

/-- Translation of `create_visit` (src/main.py:238-290).  `uuidHex 0` is the
visit id; the media loop consumes the stream from index 1. -/
def create_visit (st : St) (uuidHex : Nat → String) (now : String)
    (community_id visit_date visitor_name kind message : String)
    (media : List UploadFile) : VisitOut × St :=
  let vid := uuidHex 0
  let row : VisitRow :=
    ⟨vid, community_id, visit_date, visitor_name, kind, message, now⟩
  let res := mediaLoop "visit_media" st.fs uuidHex 1 vid media
  (⟨vid, community_id, visit_date, visitor_name, kind, some message, now,
    res.2.1⟩,
   ⟨{ st.db with
        visits := st.db.visits ++ [row]
        visit_media := st.db.visit_media ++ res.1 },
    res.2.2.1⟩)

/-- Translation of `create_memory` (src/main.py:429-479). -/
def create_memory (st : St) (uuidHex : Nat → String) (now : String)
    (community_id title description created_by : String)
    (media : List UploadFile) : MemoryOut × St :=
  let mid := uuidHex 0
  let row : MemoryRow :=
    ⟨mid, community_id, title, description, now, created_by⟩
  let res := mediaLoop "memory_media" st.fs uuidHex 1 mid media
  (⟨mid, community_id, title, some description, now, pyOrNone created_by,
    res.2.1⟩,
   ⟨{ st.db with
        memories := st.db.memories ++ [row]
        memory_media := st.db.memory_media ++ res.1 },
    res.2.2.1⟩)

/-- Translation of `create_donation` (src/main.py:355-394): looks up the
visit's `community_id` (404 `"visit not found"` when absent, nothing
persisted), coerces `amount` through `int(amount or 0)`, inserts the row and
returns `DonationOut` with `donor_name or None` / `message or None`. -/
def create_donation (st : St) (uuidHex : Nat → String) (now : String)
    (visit_id donor_name : String) (amount : Option Int) (message : String) :
    Except HttpError DonationOut × St :=
  match st.db.visits.find? (fun v => decide (v.id = visit_id)) with
  | none => (.error ⟨404, "visit not found"⟩, st)
  | some v =>
    let community_id := v.community_id
    let did := uuidHex 0
    let amt := pyIntOr amount
    let row : DonationRow :=
      ⟨did, community_id, visit_id, donor_name, amt, message, now⟩
    (.ok ⟨did, community_id, visit_id, pyOrNone donor_name, amt,
          pyOrNone message, now⟩,
     ⟨{ st.db with donations := st.db.donations ++ [row] }, st.fs⟩)

/-- Translation of `create_memory_comment` (src/main.py:534-572): looks up
the memory's `community_id` (404 `"memory not found"` when absent, nothing
persisted) and inserts the comment row; `message` is stored and returned
verbatim, with no content validation. -/
def create_memory_comment (st : St) (uuidHex : Nat → String) (now : String)
    (memory_id author_name message : String) :
    Except HttpError MemoryCommentOut × St :=
  match st.db.memories.find? (fun m => decide (m.id = memory_id)) with
  | none => (.error ⟨404, "memory not found"⟩, st)
  | some m =>
    let community_id := m.community_id
    let cid := uuidHex 0
    let row : MemoryCommentRow :=
      ⟨cid, community_id, memory_id, author_name, message, now⟩
    (.ok ⟨cid, community_id, memory_id, pyOrNone author_name, message, now⟩,
     ⟨{ st.db with memory_comments := st.db.memory_comments ++ [row] }, st.fs⟩)

/-- Translation of `upload_community_avatar` (src/main.py:606-614): an empty
`community_id` (the falsy value a missing form value reduces to inside the
handler) is rejected with 400 before any write. -/
def upload_community_avatar (st : St) (community_id : String)
    (photo : UploadFile) : Except HttpError AvatarOut × St :=
  if community_id = "" then
    (.error ⟨400, "community_id is required"⟩, st)
  else
    let sa := save_community_avatar st.fs photo community_id
    (.ok ⟨community_id, sa.1⟩, ⟨st.db, sa.2⟩)

/-- Insertion of one element into a list sorted by the boolean comparator
`le` (auxiliary to `sortBy`). -/
def insertSorted (le : α → α → Bool) (a : α) : List α → List α
  | [] => [a]
  | b :: l => if le a b then a :: b :: l else b :: insertSorted le a l

/-- Insertion sort by a boolean comparator; models SQLite `ORDER BY` (the
claims only use that the output is sorted and a permutation-invariant
membership, so any correct sort is a faithful model). -/
def sortBy (le : α → α → Bool) : List α → List α
  | [] => []
  | a :: l => insertSorted le a (sortBy le l)

/-- Comparator of `ORDER BY v.visit_date DESC, v.created_at DESC`
(src/main.py:311): `a` may precede `b`. -/
def visitLe (a b : VisitRow) : Bool :=
  decide (b.visit_date < a.visit_date) ||
    (decide (b.visit_date = a.visit_date) && decide (b.created_at ≤ a.created_at))

/-- Comparator of `ORDER BY created_at DESC` (donations, src/main.py:407). -/
def donationLe (a b : DonationRow) : Bool :=
  decide (b.created_at ≤ a.created_at)

/-- Comparator of `ORDER BY created_at DESC` (memories, src/main.py:492). -/
def memoryLe (a b : MemoryRow) : Bool :=
  decide (b.created_at ≤ a.created_at)

/-- Comparator of `ORDER BY created_at ASC` (memory comments,
src/main.py:585). -/
def commentLe (a b : MemoryCommentRow) : Bool :=
  decide (a.created_at ≤ b.created_at)

/-- Projection of the media rows owned by `owner` in table order (the
`visit_media` / `memory_media` sub-queries have no `ORDER BY`, so rowid
order). -/
def mediaFor (table : List MediaRow) (owner : String) : List MediaOut :=
  (table.filter (fun m => decide (m.owner_id = owner))).map
    (fun m => ⟨m.media_type, m.file_path⟩)

/-- Row-to-response projection of `list_visits`. -/
def visitToOut (vm : List MediaRow) (r : VisitRow) : VisitOut :=
  ⟨r.id, r.community_id, r.visit_date, r.visitor_name, r.kind,
   some r.message, r.created_at, mediaFor vm r.id⟩

/-- Translation of `list_visits` (src/main.py:292-351). -/
def list_visits (db : DB) (community_id : String) : List VisitOut :=
  (sortBy visitLe
      (db.visits.filter (fun v => decide (v.community_id = community_id)))).map
    (visitToOut db.visit_media)

/-- Row-to-response projection of `list_donations`: nullable columns come
back as the stored strings (never `None` for rows written by
`create_donation`). -/
def donationToOut (r : DonationRow) : DonationOut :=
  ⟨r.id, r.community_id, r.visit_id, some r.donor_name, r.amount,
   some r.message, r.created_at⟩

/-- Translation of `list_donations` (src/main.py:396-425). -/
def list_donations (db : DB) (community_id : String) : List DonationOut :=
  (sortBy donationLe
      (db.donations.filter
        (fun d => decide (d.community_id = community_id)))).map donationToOut

/-- Row-to-response projection of `list_memories`. -/
def memoryToOut (mm : List MediaRow) (r : MemoryRow) : MemoryOut :=
  ⟨r.id, r.community_id, r.title, some r.description, r.created_at,
   some r.created_by, mediaFor mm r.id⟩

/-- Translation of `list_memories` (src/main.py:481-530). -/
def list_memories (db : DB) (community_id : String) : List MemoryOut :=
  (sortBy memoryLe
      (db.memories.filter
        (fun m => decide (m.community_id = community_id)))).map
    (memoryToOut db.memory_media)

/-- Row-to-response projection of `list_memory_comments`. -/
def commentToOut (r : MemoryCommentRow) : MemoryCommentOut :=
  ⟨r.id, r.community_id, r.memory_id, some r.author_name, r.message,
   r.created_at⟩

/-- Translation of `list_memory_comments` (src/main.py:574-602). -/
def list_memory_comments (db : DB) (community_id : String) :
    List MemoryCommentOut :=
  (sortBy commentLe
      (db.memory_comments.filter
        (fun c => decide (c.community_id = community_id)))).map commentToOut

/-! Sorting lemmas for `sortBy`. -/

theorem mem_insertSorted {le : α → α → Bool} {a x : α} {l : List α} :
    x ∈ insertSorted le a l ↔ x = a ∨ x ∈ l := by
  induction l with
  | nil => simp [insertSorted]
  | cons b l ih =>
    simp only [insertSorted]
    split
    · simp [List.mem_cons]
    · simp only [List.mem_cons, ih]
      tauto

theorem mem_sortBy {le : α → α → Bool} {x : α} {l : List α} :
    x ∈ sortBy le l ↔ x ∈ l := by
  induction l with
  | nil => simp [sortBy]
  | cons b l ih =>
    simp only [sortBy, mem_insertSorted, ih, List.mem_cons]

theorem pairwise_insertSorted {le : α → α → Bool}
    (total : ∀ a b, le a b || le b a)
    (trans : ∀ a b c, le a b → le b c → le a c)
    {a : α} {l : List α} (h : l.Pairwise (fun x y => le x y = true)) :
    (insertSorted le a l).Pairwise (fun x y => le x y = true) := by
  induction l with
  | nil => simp [insertSorted]
  | cons b l ih =>
    rcases h with _ | ⟨hb, hl⟩
    simp only [insertSorted]
    split
    case isTrue hab =>
      refine List.Pairwise.cons ?_ (List.Pairwise.cons hb hl)
      intro x hx
      rcases List.mem_cons.mp hx with rfl | hx
      · exact hab
      · exact trans a b x hab (hb x hx)
    case isFalse hab =>
      have hba : le b a = true := by
        have htot := total a b
        rcases Bool.or_eq_true _ _ |>.mp htot with h1 | h1
        · exact absurd h1 hab
        · exact h1
      refine List.Pairwise.cons ?_ (ih hl)
      intro x hx
      rcases mem_insertSorted.mp hx with rfl | hx
      · exact hba
      · exact hb x hx

theorem pairwise_sortBy {le : α → α → Bool}
    (total : ∀ a b, le a b || le b a)
    (trans : ∀ a b c, le a b → le b c → le a c)
    (l : List α) : (sortBy le l).Pairwise (fun x y => le x y = true) := by
  induction l with
  | nil => simp [sortBy]
  | cons b l ih => exact pairwise_insertSorted total trans ih

/-! Totality and transitivity of the `ORDER BY` comparators. -/

theorem donationLe_total (a b : DonationRow) : donationLe a b || donationLe b a := by
  simp only [donationLe, Bool.or_eq_true, decide_eq_true_iff]
  exact le_total b.created_at a.created_at

theorem donationLe_trans (a b c : DonationRow) :
    donationLe a b → donationLe b c → donationLe a c := by
  simp only [donationLe, decide_eq_true_iff]
  intro h1 h2
  exact le_trans h2 h1

theorem memoryLe_total (a b : MemoryRow) : memoryLe a b || memoryLe b a := by
  simp only [memoryLe, Bool.or_eq_true, decide_eq_true_iff]
  exact le_total b.created_at a.created_at

theorem memoryLe_trans (a b c : MemoryRow) :
    memoryLe a b → memoryLe b c → memoryLe a c := by
  simp only [memoryLe, decide_eq_true_iff]
  intro h1 h2
  exact le_trans h2 h1

theorem commentLe_total (a b : MemoryCommentRow) : commentLe a b || commentLe b a := by
  simp only [commentLe, Bool.or_eq_true, decide_eq_true_iff]
  exact le_total a.created_at b.created_at

theorem commentLe_trans (a b c : MemoryCommentRow) :
    commentLe a b → commentLe b c → commentLe a c := by
  simp only [commentLe, decide_eq_true_iff]
  intro h1 h2
  exact le_trans h1 h2

theorem visitLe_iff (a b : VisitRow) :
    visitLe a b = true ↔
      b.visit_date < a.visit_date ∨
        (b.visit_date = a.visit_date ∧ b.created_at ≤ a.created_at) := by
  simp [visitLe]

theorem visitLe_total (a b : VisitRow) : visitLe a b || visitLe b a := by
  simp only [Bool.or_eq_true, visitLe_iff]
  rcases lt_trichotomy a.visit_date b.visit_date with h | h | h
  · exact Or.inr (Or.inl h)
  · rcases le_total a.created_at b.created_at with hc | hc
    · exact Or.inr (Or.inr ⟨h, hc⟩)
    · exact Or.inl (Or.inr ⟨h.symm, hc⟩)
  · exact Or.inl (Or.inl h)

theorem visitLe_trans (a b c : VisitRow) :
    visitLe a b → visitLe b c → visitLe a c := by
  simp only [visitLe_iff]
  rintro (h1 | ⟨h1e, h1c⟩) (h2 | ⟨h2e, h2c⟩)
  · exact Or.inl (lt_trans h2 h1)
  · exact Or.inl (h2e ▸ h1)
  · exact Or.inl (h1e ▸ h2)
  · exact Or.inr ⟨h2e.trans h1e, le_trans h2c h1c⟩

/-! Ordering and community-restriction of the four list endpoints. -/

theorem list_visits_sorted (db : DB) (cid : String) :
    (list_visits db cid).Pairwise (fun a b =>
      b.visit_date < a.visit_date ∨
        (b.visit_date = a.visit_date ∧ b.created_at ≤ a.created_at)) := by
  refine List.Pairwise.map _ ?_ (pairwise_sortBy visitLe_total visitLe_trans _)
  intro a b h
  exact (visitLe_iff a b).mp h

theorem list_visits_community {db : DB} {cid : String} {x : VisitOut}
    (hx : x ∈ list_visits db cid) : x.community_id = cid := by
  obtain ⟨r, hr, rfl⟩ := List.mem_map.mp hx
  exact of_decide_eq_true (List.mem_filter.mp (mem_sortBy.mp hr)).2

theorem list_donations_sorted (db : DB) (cid : String) :
    (list_donations db cid).Pairwise (fun a b => b.created_at ≤ a.created_at) := by
  refine List.Pairwise.map _ ?_
    (pairwise_sortBy donationLe_total donationLe_trans _)
  intro a b h
  exact of_decide_eq_true h

theorem list_donations_community {db : DB} {cid : String} {x : DonationOut}
    (hx : x ∈ list_donations db cid) : x.community_id = cid := by
  obtain ⟨r, hr, rfl⟩ := List.mem_map.mp hx
  exact of_decide_eq_true (List.mem_filter.mp (mem_sortBy.mp hr)).2

theorem list_memories_sorted (db : DB) (cid : String) :
    (list_memories db cid).Pairwise (fun a b => b.created_at ≤ a.created_at) := by
  refine List.Pairwise.map _ ?_
    (pairwise_sortBy memoryLe_total memoryLe_trans _)
  intro a b h
  exact of_decide_eq_true h

theorem list_memories_community {db : DB} {cid : String} {x : MemoryOut}
    (hx : x ∈ list_memories db cid) : x.community_id = cid := by
  obtain ⟨r, hr, rfl⟩ := List.mem_map.mp hx
  exact of_decide_eq_true (List.mem_filter.mp (mem_sortBy.mp hr)).2

theorem list_memory_comments_sorted (db : DB) (cid : String) :
    (list_memory_comments db cid).Pairwise
      (fun a b => a.created_at ≤ b.created_at) := by
  refine List.Pairwise.map _ ?_
    (pairwise_sortBy commentLe_total commentLe_trans _)
  intro a b h
  exact of_decide_eq_true h

theorem list_memory_comments_community {db : DB} {cid : String}
    {x : MemoryCommentOut} (hx : x ∈ list_memory_comments db cid) :
    x.community_id = cid := by
  obtain ⟨r, hr, rfl⟩ := List.mem_map.mp hx
  exact of_decide_eq_true (List.mem_filter.mp (mem_sortBy.mp hr)).2

/-- C4: every sequence returned by `list_memory_comments` is in non-decreasing
`created_at` order, and every sequence returned by `list_visits`,
`list_donations` and `list_memories` is in non-increasing order of its sort
key — for `list_visits` the lexicographic pair `(visit_date, created_at)`,
for the other two `created_at` — each restricted to records of the queried
community. -/
theorem C4_list_ordering (db : DB) (cid : String) :
    ((list_memory_comments db cid).Pairwise
        (fun a b => a.created_at ≤ b.created_at) ∧
      ∀ x ∈ list_memory_comments db cid, x.community_id = cid) ∧
    ((list_visits db cid).Pairwise (fun a b =>
        b.visit_date < a.visit_date ∨
          (b.visit_date = a.visit_date ∧ b.created_at ≤ a.created_at)) ∧
      ∀ x ∈ list_visits db cid, x.community_id = cid) ∧
    ((list_donations db cid).Pairwise
        (fun a b => b.created_at ≤ a.created_at) ∧
      ∀ x ∈ list_donations db cid, x.community_id = cid) ∧
    ((list_memories db cid).Pairwise
        (fun a b => b.created_at ≤ a.created_at) ∧
      ∀ x ∈ list_memories db cid, x.community_id = cid) :=
  ⟨⟨list_memory_comments_sorted db cid,
      fun _ hx => list_memory_comments_community hx⟩,
    ⟨list_visits_sorted db cid, fun _ hx => list_visits_community hx⟩,
    ⟨list_donations_sorted db cid, fun _ hx => list_donations_community hx⟩,
    ⟨list_memories_sorted db cid, fun _ hx => list_memories_community hx⟩⟩

/-! Concrete fixtures used by witness theorems. -/

/-- A deterministic stand-in for the `uuid4().hex` stream: 32 characters,
distinct 8-character leading tokens for the first three draws. -/
def wGen : Nat → String := fun n =>
  match n with
  | 0 => "aaaaaaaa000000000000000000000000"
  | 1 => "bbbbbbbb000000000000000000000000"
  | _ => "cccccccc000000000000000000000000"

/-- Fixture: one visit in community `c1`. -/
def wVisit : VisitRow := ⟨"v1", "c1", "2024-01-01", "Aya", "visit", "", "t1"⟩

/-- Fixture: one memory in community `c1`. -/
def wMemory : MemoryRow := ⟨"m1", "c1", "Album", "", "t0", ""⟩

/-- Fixture state: one visit and one memory, empty filesystem. -/
def wSt : St := ⟨⟨[wVisit], [], [], [wMemory], [], []⟩, []⟩

/-- C1: for every donation created via `create_donation` and every comment
created via `create_memory_comment`, the `community_id` stored in the new
record and returned to the caller equals the `community_id` of the referenced
parent (the visit for a donation, the memory for a comment) at the time of
creation; neither handler takes a `community_id` input. -/
theorem C1_derived_community_id
    (st : St) (uuidHex : Nat → String) (now visit_id donor_name : String)
    (amount : Option Int) (dmessage memory_id author_name cmessage : String)
    (dout : DonationOut) (st₁ : St) (cout : MemoryCommentOut) (st₂ : St) :
    (create_donation st uuidHex now visit_id donor_name amount dmessage =
        (.ok dout, st₁) →
      ∃ v, st.db.visits.find? (fun r => decide (r.id = visit_id)) = some v ∧
        dout.community_id = v.community_id ∧
        ∃ row, st₁.db.donations = st.db.donations ++ [row] ∧
          row.community_id = v.community_id) ∧
    (create_memory_comment st uuidHex now memory_id author_name cmessage =
        (.ok cout, st₂) →
      ∃ m, st.db.memories.find? (fun r => decide (r.id = memory_id)) = some m ∧
        cout.community_id = m.community_id ∧
        ∃ row, st₂.db.memory_comments = st.db.memory_comments ++ [row] ∧
          row.community_id = m.community_id) := by
  constructor
  · intro h
    cases hfind : st.db.visits.find? (fun r => decide (r.id = visit_id)) with
    | none => simp [create_donation, hfind] at h
    | some v =>
      simp only [create_donation, hfind] at h
      injection h with h1 h2
      injection h1 with h1
      subst h1
      subst h2
      exact ⟨v, rfl, rfl, ⟨_, rfl, rfl⟩⟩
  · intro h
    cases hfind : st.db.memories.find? (fun r => decide (r.id = memory_id)) with
    | none => simp [create_memory_comment, hfind] at h
    | some m =>
      simp only [create_memory_comment, hfind] at h
      injection h with h1 h2
      injection h1 with h1
      subst h1
      subst h2
      exact ⟨m, rfl, rfl, ⟨_, rfl, rfl⟩⟩

/-- Expected creation response of the C1 witness donation. -/
def wDOut : DonationOut :=
  ⟨"aaaaaaaa000000000000000000000000", "c1", "v1", some "Bob", 500,
   some "thanks", "t2"⟩

/-- Expected stored row of the C1 witness donation. -/
def wDRow : DonationRow :=
  ⟨"aaaaaaaa000000000000000000000000", "c1", "v1", "Bob", 500, "thanks", "t2"⟩

/-- Expected state after the C1 witness donation. -/
def wStD : St := ⟨⟨[wVisit], [], [wDRow], [wMemory], [], []⟩, []⟩

/-- Expected creation response of the C1 witness comment. -/
def wCOut : MemoryCommentOut :=
  ⟨"aaaaaaaa000000000000000000000000", "c1", "m1", some "Ann", "hi", "t3"⟩

/-- Expected stored row of the C1 witness comment. -/
def wCRow : MemoryCommentRow :=
  ⟨"aaaaaaaa000000000000000000000000", "c1", "m1", "Ann", "hi", "t3"⟩

/-- Expected state after the C1 witness comment. -/
def wStC : St := ⟨⟨[wVisit], [], [], [wMemory], [], [wCRow]⟩, []⟩

/-- Witness for C1 at a concrete state: a donation on visit `v1` and a
comment on memory `m1`, both in community `c1`. -/
theorem C1_derived_community_id_witness :
    (create_donation wSt wGen "t2" "v1" "Bob" (some 500) "thanks" =
      (.ok wDOut, wStD)) ∧
    (create_memory_comment wSt wGen "t3" "m1" "Ann" "hi" =
      (.ok wCOut, wStC)) ∧
    (∃ v, wSt.db.visits.find? (fun r => decide (r.id = "v1")) = some v ∧
      wDOut.community_id = v.community_id ∧
      ∃ row, wStD.db.donations = wSt.db.donations ++ [row] ∧
        row.community_id = v.community_id) ∧
    (∃ m, wSt.db.memories.find? (fun r => decide (r.id = "m1")) = some m ∧
      wCOut.community_id = m.community_id ∧
      ∃ row, wStC.db.memory_comments = wSt.db.memory_comments ++ [row] ∧
        row.community_id = m.community_id) :=
  ⟨rfl, rfl,
   (C1_derived_community_id wSt wGen "t2" "v1" "Bob" (some 500) "thanks"
      "m1" "Ann" "hi" wDOut wStD wCOut wStC).1 rfl,
   (C1_derived_community_id wSt wGen "t3" "v1" "Bob" (some 500) "thanks"
      "m1" "Ann" "hi" wDOut wStD wCOut wStC).2 rfl⟩

/-- C2: `create_donation` with a `visit_id` matching no visit fails with the
404 error `"visit not found"`, leaves the state unchanged, and the donations
list of every community is the same after the failed call as before it. -/
theorem C2_donation_reference_not_found
    (st : St) (uuidHex : Nat → String)
    (now visit_id donor_name : String) (amount : Option Int) (message : String)
    (h : st.db.visits.find? (fun v => decide (v.id = visit_id)) = none) :
    create_donation st uuidHex now visit_id donor_name amount message =
      (.error ⟨404, "visit not found"⟩, st) ∧
    ∀ c, list_donations
        (create_donation st uuidHex now visit_id donor_name amount message).2.db
        c = list_donations st.db c := by
  have heq : create_donation st uuidHex now visit_id donor_name amount message =
      (.error ⟨404, "visit not found"⟩, st) := by
    simp [create_donation, h]
  exact ⟨heq, fun c => by rw [heq]⟩

/-- Witness for C2: a donation against the unknown visit id `ghost`. -/
theorem C2_donation_reference_not_found_witness :
    (wSt.db.visits.find? (fun v => decide (v.id = "ghost")) = none) ∧
    (create_donation wSt wGen "t2" "ghost" "" none "" =
      (.error ⟨404, "visit not found"⟩, wSt) ∧
     ∀ c, list_donations
        (create_donation wSt wGen "t2" "ghost" "" none "").2.db c =
        list_donations wSt.db c) :=
  ⟨by decide,
   C2_donation_reference_not_found wSt wGen "t2" "ghost" "" none "" (by decide)⟩

/-- C8: an avatar-upload request whose `community_id` is missing (the falsy
value the handler's `if not community_id` guard tests, i.e. the empty string)
fails with the 400 error `"community_id is required"` before any persistence:
the returned state, in particular the media filesystem, is unchanged. -/
theorem C8_avatar_missing_community_id (st : St) (photo : UploadFile) :
    upload_community_avatar st "" photo =
      (.error ⟨400, "community_id is required"⟩, st) ∧
    (upload_community_avatar st "" photo).2.fs = st.fs := by
  exact ⟨rfl, rfl⟩

/-- C7 counterexample: with memory `m1` present, `create_memory_comment`
called with the empty message succeeds (it is not rejected as a validation
failure) and persists a comment whose message is the empty string. -/
theorem C7_counterexample :
    create_memory_comment wSt wGen "t3" "m1" "" "" =
      (.ok ⟨"aaaaaaaa000000000000000000000000", "c1", "m1", none, "", "t3"⟩,
       ⟨⟨[wVisit], [], [], [wMemory], [],
         [⟨"aaaaaaaa000000000000000000000000", "c1", "m1", "", "", "t3"⟩]⟩,
        []⟩) ∧
    (create_memory_comment wSt wGen "t3" "m1" "" "").2.db.memory_comments ≠
      wSt.db.memory_comments :=
  ⟨rfl, by decide⟩

/-- C7 as amended: `create_memory_comment` does not validate the message
content; for every call with an existing `memory_id`, a comment carrying the
given message — the empty string included — is created, returned and
persisted. -/
theorem C7_comment_message_accepted
    (st : St) (uuidHex : Nat → String)
    (now memory_id author_name message : String) (m : MemoryRow)
    (h : st.db.memories.find? (fun r => decide (r.id = memory_id)) = some m) :
    ∃ out st',
      create_memory_comment st uuidHex now memory_id author_name message =
        (.ok out, st') ∧
      out.message = message ∧
      ∃ row, st'.db.memory_comments = st.db.memory_comments ++ [row] ∧
        row.message = message := by
  simp only [create_memory_comment, h]
  exact ⟨_, _, rfl, rfl, _, rfl, rfl⟩

/-- Witness for the amended C7: the empty message is accepted on memory
`m1`. -/
theorem C7_comment_message_accepted_witness :
    (wSt.db.memories.find? (fun r => decide (r.id = "m1")) = some wMemory) ∧
    (∃ out st',
      create_memory_comment wSt wGen "t3" "m1" "" "" = (.ok out, st') ∧
      out.message = "" ∧
      ∃ row, st'.db.memory_comments = wSt.db.memory_comments ++ [row] ∧
        row.message = "") :=
  ⟨by decide,
   C7_comment_message_accepted wSt wGen "t3" "m1" "" "" wMemory (by decide)⟩

/-- Helper: a donation row of the queried community appears (projected) in
the `list_donations` output. -/
theorem donationToOut_mem_list_donations {db : DB} {cid : String}
    {row : DonationRow} (hmem : row ∈ db.donations)
    (hcid : row.community_id = cid) :
    donationToOut row ∈ list_donations db cid :=
  List.mem_map_of_mem donationToOut
    (mem_sortBy.mpr (List.mem_filter.mpr ⟨hmem, decide_eq_true hcid⟩))

/-- C9: a donation created with empty `donor_name` and empty `message` is
returned by `create_donation` with those fields absent (`none`), but the same
record is later returned by `list_donations` with those fields as the empty
string, so the listed record differs from the creation response. -/
theorem C9_empty_fields_no_round_trip
    (st : St) (uuidHex : Nat → String) (now visit_id : String)
    (amount : Option Int) (v : VisitRow)
    (h : st.db.visits.find? (fun r => decide (r.id = visit_id)) = some v) :
    ∃ out st',
      create_donation st uuidHex now visit_id "" amount "" = (.ok out, st') ∧
      out.donor_name = none ∧ out.message = none ∧
      ∃ d ∈ list_donations st'.db v.community_id,
        d.id = out.id ∧ d.donor_name = some "" ∧ d.message = some "" ∧
        d.donor_name ≠ out.donor_name ∧ d.message ≠ out.message := by
  simp only [create_donation, h]
  refine ⟨_, _, rfl, rfl, rfl, ?_⟩
  refine ⟨donationToOut ⟨uuidHex 0, v.community_id, visit_id, "",
    pyIntOr amount, "", now⟩, ?_, rfl, rfl, rfl,
    by simp [donationToOut, pyOrNone], by simp [donationToOut, pyOrNone]⟩
  exact donationToOut_mem_list_donations
    (List.mem_append_right _ (List.mem_singleton.mpr rfl)) rfl

/-- Witness for C9 on visit `v1`: creation returns `none` fields, the list
returns `some ""` fields. -/
theorem C9_empty_fields_no_round_trip_witness :
    (wSt.db.visits.find? (fun r => decide (r.id = "v1")) = some wVisit) ∧
    (∃ out st',
      create_donation wSt wGen "t2" "v1" "" (some 500) "" = (.ok out, st') ∧
      out.donor_name = none ∧ out.message = none ∧
      ∃ d ∈ list_donations st'.db wVisit.community_id,
        d.id = out.id ∧ d.donor_name = some "" ∧ d.message = some "" ∧
        d.donor_name ≠ out.donor_name ∧ d.message ≠ out.message) :=
  ⟨by decide,
   C9_empty_fields_no_round_trip wSt wGen "t2" "v1" (some 500) wVisit
     (by decide)⟩

/-- First avatar upload of the C6 scenario. -/
def wAv1 : UploadFile := ⟨some "a.jpg", some "image/jpeg", [1, 1]⟩

/-- Second avatar upload of the C6 scenario (different extension). -/
def wAv2 : UploadFile := ⟨some "b.png", some "image/png", [2, 2]⟩

/-- C6 counterexample: two avatar uploads for the same community with files
of different extensions are stored under two different reference paths — the
filename is a function of the community id and the upload's extension, not of
the community id alone. -/
theorem C6_counterexample :
    (upload_community_avatar wSt "c1" wAv1).1 =
      .ok ⟨"c1", "/media/community_avatars/c1.jpg"⟩ ∧
    (upload_community_avatar (upload_community_avatar wSt "c1" wAv1).2 "c1"
        wAv2).1 =
      .ok ⟨"c1", "/media/community_avatars/c1.png"⟩ ∧
    ("/media/community_avatars/c1.jpg" : String) ≠
      "/media/community_avatars/c1.png" :=
  ⟨rfl, rfl, by decide⟩

/-- C6 as amended: the avatar's stored reference path is a deterministic
function of the community id and the uploaded file's lowercased extension
(fallback `.jpg`); when the two uploads share that extension, the second
call's path is identical to the first and retrieving it afterwards returns
the second file's bytes. -/
theorem C6_avatar_overwrite (st : St) (cid : String) (f1 f2 : UploadFile)
    (hcid : cid ≠ "")
    (hext : uploadExt (pyStr f1.filename) ".jpg" =
      uploadExt (pyStr f2.filename) ".jpg") :
    ∃ p,
      (upload_community_avatar st cid f1).1 = .ok ⟨cid, p⟩ ∧
      (upload_community_avatar (upload_community_avatar st cid f1).2 cid
          f2).1 = .ok ⟨cid, p⟩ ∧
      fsRead (upload_community_avatar (upload_community_avatar st cid f1).2
          cid f2).2.fs p = some f2.content := by
  refine ⟨"/media/community_avatars/" ++
    (pyReplaceSlash cid ++ uploadExt (pyStr f2.filename) ".jpg"),
    ?_, ?_, ?_⟩
  · simp [upload_community_avatar, hcid, save_community_avatar, hext]
  · simp [upload_community_avatar, hcid, save_community_avatar]
  · simp [upload_community_avatar, hcid, save_community_avatar, fsWrite,
      fsRead]

/-- Witness for the amended C6: `a.jpg` then `B.JPG` for community `c1`
share the lowercased extension `.jpg`. -/
theorem C6_avatar_overwrite_witness :
    (("c1" : String) ≠ "") ∧
    (uploadExt (pyStr (some "a.jpg")) ".jpg" =
      uploadExt (pyStr (some "B.JPG")) ".jpg") ∧
    (∃ p,
      (upload_community_avatar wSt "c1" wAv1).1 = .ok ⟨"c1", p⟩ ∧
      (upload_community_avatar (upload_community_avatar wSt "c1" wAv1).2 "c1"
          ⟨some "B.JPG", some "image/jpeg", [9, 9]⟩).1 = .ok ⟨"c1", p⟩ ∧
      fsRead (upload_community_avatar
          (upload_community_avatar wSt "c1" wAv1).2 "c1"
          ⟨some "B.JPG", some "image/jpeg", [9, 9]⟩).2.fs p = some [9, 9]) :=
  ⟨by decide, by decide,
   C6_avatar_overwrite wSt "c1" wAv1 ⟨some "B.JPG", some "image/jpeg", [9, 9]⟩
     (by decide) (by decide)⟩

/-- Lowercase hexadecimal digits, the alphabet of `uuid4().hex`. -/
def isLowerHex (c : Char) : Bool :=
  ("0123456789abcdef".toList).contains c

/-- C10: `save_upload_file` returns a reference of the exact shape
`/media/<subdir>/<prefix-with-slashes-replaced-by-underscores>_<8-hex-char
token><ext>`, where `<ext>` is the lowercased extension of the original
filename, or `.bin` when the original filename has no extension.  The
hypotheses say the supplied `uuid4().hex` draw is (at least) 8 lowercase hex
characters, which the real generator guarantees (32 such characters). -/
theorem C10_upload_reference_shape
    (fs : FS) (tok : String) (up : UploadFile) (subdir pfx : String)
    (hlen : 8 ≤ tok.length)
    (hhex : ∀ c ∈ tok.toList, isLowerHex c) :
    ∃ t,
      (save_upload_file fs tok up subdir pfx).1 =
        "/media/" ++ subdir ++ "/" ++ pyReplaceSlash pfx ++ "_" ++ t ++
          (if splitextExt (pyStr up.filename) = "" then ".bin"
           else pyLower (splitextExt (pyStr up.filename))) ∧
      t.length = 8 ∧ ∀ c ∈ t.toList, isLowerHex c := by
  refine ⟨pyTake tok 8, ?_, ?_, ?_⟩
  · have hext : uploadExt (pyStr up.filename) ".bin" =
        (if splitextExt (pyStr up.filename) = "" then ".bin"
         else pyLower (splitextExt (pyStr up.filename))) := by
      unfold uploadExt
      split
      · decide
      · rfl
    show ("/media/" ++ subdir ++ "/" ++ pyReplaceSlash pfx ++ "_") ++
      (pyTake tok 8 ++ uploadExt (pyStr up.filename) ".bin") = _
    rw [hext]
    apply String.ext
    simp [List.append_assoc]
  · show (tok.toList.take 8).length = 8
    rw [List.length_take]
    have hl : tok.toList.length = tok.length := rfl
    omega
  · intro c hc
    exact hhex c (List.mem_of_mem_take hc)

/-- Witness for C10: a concrete upload named `PHOTO.JPG` saved under
`visit_media` with prefix `a/b` and a concrete 32-hex-character token. -/
theorem C10_upload_reference_shape_witness :
    (8 ≤ ("0123456789abcdef0123456789abcdef" : String).length) ∧
    (∀ c ∈ ("0123456789abcdef0123456789abcdef" : String).toList,
      isLowerHex c) ∧
    (∃ t,
      (save_upload_file [] "0123456789abcdef0123456789abcdef"
          ⟨some "PHOTO.JPG", none, [5]⟩ "visit_media" "a/b").1 =
        "/media/" ++ "visit_media" ++ "/" ++ pyReplaceSlash "a/b" ++ "_" ++
          t ++
          (if splitextExt (pyStr (some "PHOTO.JPG")) = "" then ".bin"
           else pyLower (splitextExt (pyStr (some "PHOTO.JPG")))) ∧
      t.length = 8 ∧ ∀ c ∈ t.toList, isLowerHex c) :=
  ⟨by decide, by decide,
   C10_upload_reference_shape [] "0123456789abcdef0123456789abcdef"
     ⟨some "PHOTO.JPG", none, [5]⟩ "visit_media" "a/b" (by decide)
     (by decide)⟩

/-! Properties of the media-upload loop, used for C3 and C5. -/

/-- The part of a saved media URL left of the randomized token: everything
before it is fixed by the subdirectory and the owning entity's id. -/
def mediaUrlPre (subdir owner : String) : String :=
  "/media/" ++ subdir ++ "/" ++ pyReplaceSlash owner ++ "_"

theorem save_upload_file_fst (fs : FS) (tok : String) (up : UploadFile)
    (subdir pfx : String) :
    (save_upload_file fs tok up subdir pfx).1 =
      mediaUrlPre subdir pfx ++
        (pyTake tok 8 ++ uploadExt (pyStr up.filename) ".bin") := rfl

theorem save_upload_file_snd (fs : FS) (tok : String) (up : UploadFile)
    (subdir pfx : String) :
    (save_upload_file fs tok up subdir pfx).2 =
      fsWrite fs (save_upload_file fs tok up subdir pfx).1 up.content := rfl

theorem fsRead_fsWrite_self (fs : FS) (p : String) (b : Bytes) :
    fsRead (fsWrite fs p b) p = some b := by
  simp [fsRead, fsWrite]

theorem fsRead_fsWrite_ne (fs : FS) {p q : String} (b : Bytes) (h : p ≠ q) :
    fsRead (fsWrite fs p b) q = fsRead fs q := by
  simp [fsRead, fsWrite, h]

theorem pyTake_length_eight {s : String} (h : 8 ≤ s.length) :
    (pyTake s 8).length = 8 := by
  show (s.toList.take 8).length = 8
  rw [List.length_take]
  have hl : s.toList.length = s.length := rfl
  omega

theorem mediaUrl_ne_of_token_ne {subdir owner t₁ t₂ e₁ e₂ : String}
    (h1 : t₁.length = 8) (h2 : t₂.length = 8) (hne : t₁ ≠ t₂) :
    mediaUrlPre subdir owner ++ (t₁ ++ e₁) ≠
      mediaUrlPre subdir owner ++ (t₂ ++ e₂) := by
  intro h
  apply hne
  have hd : (mediaUrlPre subdir owner).data ++ (t₁.data ++ e₁.data) =
      (mediaUrlPre subdir owner).data ++ (t₂.data ++ e₂.data) := by
    have hh := congrArg String.data h
    simpa using hh
  have hcancel := List.append_cancel_left hd
  have hlen12 : t₁.data.length = t₂.data.length := by
    have e1 : t₁.data.length = t₁.length := rfl
    have e2 : t₂.data.length = t₂.length := rfl
    rw [e1, e2, h1, h2]
  exact String.ext (List.append_inj hcancel hlen12).1

theorem mediaLoop_zip_length {subdir : String} {uuidHex : Nat → String}
    {owner : String} {ups : List UploadFile}
    (hname : ∀ up ∈ ups, pyStr up.filename ≠ "") :
    ∀ fs k, (mediaLoop subdir fs uuidHex k owner ups).2.1.length =
      ups.length := by
  induction ups with
  | nil => intro fs k; rfl
  | cons up rest ih =>
    intro fs k
    have h0 : ¬pyStr up.filename = "" := hname up (List.mem_cons_self up rest)
    simp only [mediaLoop, if_neg h0, List.length_cons]
    rw [ih (fun u hu => hname u (List.mem_cons_of_mem up hu)) _ _]

theorem mediaLoop_url_token {subdir : String} {uuidHex : Nat → String}
    {owner : String} {ups : List UploadFile} :
    ∀ fs k, ∀ o ∈ (mediaLoop subdir fs uuidHex k owner ups).2.1,
      ∃ j f, k ≤ j ∧ j < k + 2 * ups.length ∧
        o.url = mediaUrlPre subdir owner ++
          (pyTake (uuidHex j) 8 ++ uploadExt f ".bin") := by
  induction ups with
  | nil => intro fs k o ho; simp [mediaLoop] at ho
  | cons up rest ih =>
    intro fs k o ho
    simp only [mediaLoop] at ho
    split at ho
    · obtain ⟨j, f, hj1, hj2, hurl⟩ := ih fs k o ho
      exact ⟨j, f, hj1, by simp only [List.length_cons]; omega, hurl⟩
    · rcases List.mem_cons.mp ho with rfl | ho'
      · refine ⟨k, pyStr up.filename, le_refl k, ?_, ?_⟩
        · simp only [List.length_cons]; omega
        · exact save_upload_file_fst fs (uuidHex k) up subdir owner
      · obtain ⟨j, f, hj1, hj2, hurl⟩ := ih _ (k + 2) o ho'
        exact ⟨j, f, by omega, by simp only [List.length_cons]; omega, hurl⟩

theorem mediaLoop_fs_preserved {subdir : String} {uuidHex : Nat → String}
    {owner : String} {ups : List UploadFile} {p : String} :
    ∀ fs k, (∀ o ∈ (mediaLoop subdir fs uuidHex k owner ups).2.1, o.url ≠ p) →
      fsRead (mediaLoop subdir fs uuidHex k owner ups).2.2.1 p =
        fsRead fs p := by
  induction ups with
  | nil => intro fs k _; rfl
  | cons up rest ih =>
    intro fs k hdiff
    by_cases h0 : pyStr up.filename = ""
    · simp only [mediaLoop, if_pos h0] at hdiff ⊢
      exact ih fs k hdiff
    · simp only [mediaLoop, if_neg h0] at hdiff ⊢
      have hu : (save_upload_file fs (uuidHex k) up subdir owner).1 ≠ p :=
        hdiff _ (List.mem_cons_self _ _)
      rw [ih _ (k + 2) (fun o ho => hdiff o (List.mem_cons_of_mem _ ho))]
      rw [save_upload_file_snd]
      exact fsRead_fsWrite_ne fs up.content hu

theorem mediaLoop_zip_media_type {subdir : String} {uuidHex : Nat → String}
    {owner : String} {ups : List UploadFile}
    (hname : ∀ up ∈ ups, pyStr up.filename ≠ "") :
    ∀ fs k, ∀ p ∈ ((mediaLoop subdir fs uuidHex k owner ups).2.1.zip ups),
      p.1.media_type = mediaTypeOf p.2.content_type := by
  induction ups with
  | nil => intro fs k p hp; simp [mediaLoop] at hp
  | cons up rest ih =>
    intro fs k p hp
    have h0 : ¬pyStr up.filename = "" := hname up (List.mem_cons_self up rest)
    simp only [mediaLoop, if_neg h0, List.zip_cons_cons] at hp
    rcases List.mem_cons.mp hp with rfl | hp'
    · rfl
    · exact ih (fun u hu => hname u (List.mem_cons_of_mem up hu)) _ (k + 2) p hp'

theorem mediaLoop_zip_bytes {subdir : String} {uuidHex : Nat → String}
    {owner : String} {ups : List UploadFile} :
    ∀ fs k,
      (∀ up ∈ ups, pyStr up.filename ≠ "") →
      (∀ i j, k ≤ i → i < k + 2 * ups.length → k ≤ j →
        j < k + 2 * ups.length →
        pyTake (uuidHex i) 8 = pyTake (uuidHex j) 8 → i = j) →
      (∀ i, k ≤ i → i < k + 2 * ups.length → 8 ≤ (uuidHex i).length) →
      ∀ p ∈ ((mediaLoop subdir fs uuidHex k owner ups).2.1.zip ups),
        fsRead (mediaLoop subdir fs uuidHex k owner ups).2.2.1 p.1.url =
          some p.2.content := by
  induction ups with
  | nil => intro fs k _ _ _ p hp; simp [mediaLoop] at hp
  | cons up rest ih =>
    intro fs k hname hinj hlen p hp
    have h0 : ¬pyStr up.filename = "" := hname up (List.mem_cons_self up rest)
    simp only [mediaLoop, if_neg h0, List.zip_cons_cons] at hp ⊢
    rcases List.mem_cons.mp hp with rfl | hp'
    · have hne : ∀ o ∈ (mediaLoop subdir
          (save_upload_file fs (uuidHex k) up subdir owner).2 uuidHex (k + 2)
          owner rest).2.1,
          o.url ≠ (save_upload_file fs (uuidHex k) up subdir owner).1 := by
        intro o ho
        obtain ⟨j, f, hj1, hj2, hurl⟩ := mediaLoop_url_token _ (k + 2) o ho
        rw [hurl, save_upload_file_fst]
        have hjlen : (pyTake (uuidHex j) 8).length = 8 :=
          pyTake_length_eight (hlen j (by omega)
            (by simp only [List.length_cons]; omega))
        have hklen : (pyTake (uuidHex k) 8).length = 8 :=
          pyTake_length_eight (hlen k (le_refl k)
            (by simp only [List.length_cons]; omega))
        refine mediaUrl_ne_of_token_ne hjlen hklen ?_
        intro htok
        have := hinj j k (by omega) (by simp only [List.length_cons]; omega)
          (le_refl k) (by simp only [List.length_cons]; omega) htok
        omega
      rw [mediaLoop_fs_preserved _ (k + 2) hne, save_upload_file_snd]
      exact fsRead_fsWrite_self _ _ _
    · exact ih _ (k + 2)
        (fun u hu => hname u (List.mem_cons_of_mem up hu))
        (fun i j hi1 hi2 hj1 hj2 ht => hinj i j (by omega)
          (by simp only [List.length_cons]; omega) (by omega)
          (by simp only [List.length_cons]; omega) ht)
        (fun i hi1 hi2 => hlen i (by omega)
          (by simp only [List.length_cons]; omega))
        p hp'

/-- C3 counterexample: a `create_visit` / `create_memory` call with one
attached media file whose filename is empty returns a `media` sequence of
length 0, not 1 — the handlers silently skip files with falsy filenames
(src/main.py:263-264, 453-454). -/
theorem C3_counterexample :
    ([(⟨some "", none, [1, 2, 3]⟩ : UploadFile)].length = 1) ∧
    (create_visit wSt wGen "t5" "c1" "2024-08-13" "Aya" "visit" ""
        [⟨some "", none, [1, 2, 3]⟩]).1.media.length = 0 ∧
    (create_memory wSt wGen "t5" "c1" "Album2" "" ""
        [⟨some "", none, [1, 2, 3]⟩]).1.media.length = 0 :=
  ⟨rfl, rfl, rfl⟩

/-- C3 as amended: for every `create_visit` or `create_memory` call whose N
attached media files all have non-empty filenames, the returned entity's
`media` sequence has exactly N entries, and the `url` of the i-th entry is a
reference under which exactly the bytes uploaded for the i-th file are
stored.  The token hypotheses say the `uuid4().hex` draws used by the call
have pairwise-distinct 8-character leading tokens of full length — what the
randomized generator provides (up to its negligible collision
probability). -/
theorem C3_media_roundtrip
    (st : St) (uuidHex : Nat → String)
    (now cid vdate vname kind message title description created_by : String)
    (media : List UploadFile)
    (hname : ∀ up ∈ media, pyStr up.filename ≠ "")
    (hinj : ∀ i j, i < 1 + 2 * media.length → j < 1 + 2 * media.length →
      pyTake (uuidHex i) 8 = pyTake (uuidHex j) 8 → i = j)
    (hlen : ∀ i, i < 1 + 2 * media.length → 8 ≤ (uuidHex i).length) :
    ((create_visit st uuidHex now cid vdate vname kind message
        media).1.media.length = media.length ∧
      ∀ p ∈ ((create_visit st uuidHex now cid vdate vname kind message
          media).1.media.zip media),
        fsRead (create_visit st uuidHex now cid vdate vname kind message
            media).2.fs p.1.url = some p.2.content) ∧
    ((create_memory st uuidHex now cid title description created_by
        media).1.media.length = media.length ∧
      ∀ p ∈ ((create_memory st uuidHex now cid title description created_by
          media).1.media.zip media),
        fsRead (create_memory st uuidHex now cid title description created_by
            media).2.fs p.1.url = some p.2.content) := by
  have hinj' : ∀ i j, 1 ≤ i → i < 1 + 2 * media.length → 1 ≤ j →
      j < 1 + 2 * media.length →
      pyTake (uuidHex i) 8 = pyTake (uuidHex j) 8 → i = j :=
    fun i j _ hi2 _ hj2 ht => hinj i j hi2 hj2 ht
  have hlen' : ∀ i, 1 ≤ i → i < 1 + 2 * media.length →
      8 ≤ (uuidHex i).length :=
    fun i _ hi2 => hlen i hi2
  refine ⟨⟨?_, ?_⟩, ⟨?_, ?_⟩⟩
  · exact mediaLoop_zip_length hname st.fs 1
  · intro p hp
    exact mediaLoop_zip_bytes st.fs 1 hname
      (fun i j hi1 hi2 hj1 hj2 ht => hinj' i j hi1 (by omega) hj1 (by omega) ht)
      (fun i hi1 hi2 => hlen' i hi1 (by omega)) p hp
  · exact mediaLoop_zip_length hname st.fs 1
  · intro p hp
    exact mediaLoop_zip_bytes st.fs 1 hname
      (fun i j hi1 hi2 hj1 hj2 ht => hinj' i j hi1 (by omega) hj1 (by omega) ht)
      (fun i hi1 hi2 => hlen' i hi1 (by omega)) p hp

/-- Fixture upload of the C3 witness: a `a.jpg` with bytes `[7, 7]`. -/
def wUp1 : UploadFile := ⟨some "a.jpg", some "image/jpeg", [7, 7]⟩

/-- Witness for the amended C3: one attached file `a.jpg` with bytes
`[7, 7]`, under the fixture uuid stream (distinct first three tokens). -/
theorem C3_media_roundtrip_witness :
    (∀ up ∈ [wUp1], pyStr up.filename ≠ "") ∧
    (∀ i j, i < 1 + 2 * [wUp1].length → j < 1 + 2 * [wUp1].length →
      pyTake (wGen i) 8 = pyTake (wGen j) 8 → i = j) ∧
    (∀ i, i < 1 + 2 * [wUp1].length → 8 ≤ (wGen i).length) ∧
    (((create_visit wSt wGen "t5" "c1" "2024-08-13" "Aya" "visit" ""
        [wUp1]).1.media.length = [wUp1].length ∧
      ∀ p ∈ ((create_visit wSt wGen "t5" "c1" "2024-08-13" "Aya" "visit" ""
          [wUp1]).1.media.zip [wUp1]),
        fsRead (create_visit wSt wGen "t5" "c1" "2024-08-13" "Aya" "visit" ""
            [wUp1]).2.fs p.1.url = some p.2.content) ∧
     ((create_memory wSt wGen "t5" "c1" "Album2" "" ""
        [wUp1]).1.media.length = [wUp1].length ∧
      ∀ p ∈ ((create_memory wSt wGen "t5" "c1" "Album2" "" ""
          [wUp1]).1.media.zip [wUp1]),
        fsRead (create_memory wSt wGen "t5" "c1" "Album2" "" ""
            [wUp1]).2.fs p.1.url = some p.2.content)) :=
  ⟨by decide,
   by
     intro i j hi hj ht
     have hi3 : i < 3 := hi
     have hj3 : j < 3 := hj
     clear hi hj
     interval_cases i <;> interval_cases j <;>
       first
       | rfl
       | exact absurd ht (by decide),
   by
     intro i hi
     have hi3 : i < 3 := hi
     clear hi
     interval_cases i <;> decide,
   C3_media_roundtrip wSt wGen "t5" "c1" "2024-08-13" "Aya" "visit" ""
     "Album2" "" "" [wUp1]
     (by decide)
     (by
       intro i j hi hj ht
       have hi3 : i < 3 := hi
       have hj3 : j < 3 := hj
       clear hi hj
       interval_cases i <;> interval_cases j <;>
         first
         | rfl
         | exact absurd ht (by decide))
     (by
       intro i hi
       have hi3 : i < 3 := hi
       clear hi
       interval_cases i <;> decide)⟩

/-- Modelled from the spec: the media-kind classifier the spec describes —
content-type prefix when a content-type is available, otherwise a fixed
allow-list of video extensions (no such allow-list exists anywhere in
`src/main.py`; the spec fixes no concrete list, so it is a parameter here,
instantiated in the counterexample with a list containing the ubiquitous
video extension `.mp4`). -/
def specMediaKind (videoExts : List String) (content_type : Option String)
    (filename : String) : String :=
  match content_type with
  | some ct => if pyStartsWith ct "video/" then "video" else "image"
  | none =>
    if videoExts.contains (pyLower (splitextExt filename)) then "video"
    else "image"

/-- C5 counterexample: a file `clip.mp4` uploaded with no declared
content-type must be classified `"video"` by the claim's
extension-allow-list fallback (for any allow-list of video extensions
containing `.mp4`), but both handlers record `"image"` for it — the code
never consults the extension. -/
theorem C5_counterexample :
    specMediaKind [".mp4"] none "clip.mp4" = "video" ∧
    (create_visit wSt wGen "t6" "c1" "2024-08-13" "Aya" "visit" ""
        [⟨some "clip.mp4", none, [1]⟩]).1.media.map (fun m => m.media_type) =
      ["image"] ∧
    (create_memory wSt wGen "t6" "c1" "Album2" "" ""
        [⟨some "clip.mp4", none, [1]⟩]).1.media.map (fun m => m.media_type) =
      ["image"] :=
  ⟨rfl, rfl, rfl⟩

/-- C5 as amended: the recorded `media_type` of every kept attachment is
`"video"` exactly when the declared content-type (the empty string when none
is available) starts with `"video/"`, and `"image"` in every other case —
the file's extension is never consulted and there is no allow-list
fallback. -/
theorem C5_media_type_from_content_type
    (st : St) (uuidHex : Nat → String)
    (now cid vdate vname kind message title description created_by : String)
    (media : List UploadFile)
    (hname : ∀ up ∈ media, pyStr up.filename ≠ "") :
    (∀ p ∈ ((create_visit st uuidHex now cid vdate vname kind message
        media).1.media.zip media),
      p.1.media_type =
        (if pyStartsWith (pyStr p.2.content_type) "video/" then "video"
         else "image")) ∧
    (∀ p ∈ ((create_memory st uuidHex now cid title description created_by
        media).1.media.zip media),
      p.1.media_type =
        (if pyStartsWith (pyStr p.2.content_type) "video/" then "video"
         else "image")) :=
  ⟨fun p hp => mediaLoop_zip_media_type hname st.fs 1 p hp,
   fun p hp => mediaLoop_zip_media_type hname st.fs 1 p hp⟩

/-- Fixture upload: `clip.mp4` with no declared content-type. -/
def wUpMp4 : UploadFile := ⟨some "clip.mp4", none, [1]⟩

/-- Fixture upload: `b.jpg` with declared content-type `video/mp4`. -/
def wUpVid : UploadFile := ⟨some "b.jpg", some "video/mp4", [2]⟩

/-- Witness for the amended C5: an `.mp4` with no content-type is recorded
as `"image"`, and a `.jpg` with content-type `video/mp4` as `"video"`. -/
theorem C5_media_type_from_content_type_witness :
    (∀ up ∈ [wUpMp4, wUpVid], pyStr up.filename ≠ "") ∧
    ((∀ p ∈ ((create_visit wSt wGen "t6" "c1" "2024-08-13" "Aya" "visit" ""
        [wUpMp4, wUpVid]).1.media.zip [wUpMp4, wUpVid]),
      p.1.media_type =
        (if pyStartsWith (pyStr p.2.content_type) "video/" then "video"
         else "image")) ∧
    (∀ p ∈ ((create_memory wSt wGen "t6" "c1" "Album2" "" ""
        [wUpMp4, wUpVid]).1.media.zip [wUpMp4, wUpVid]),
      p.1.media_type =
        (if pyStartsWith (pyStr p.2.content_type) "video/" then "video"
         else "image"))) :=
  ⟨by decide,
   C5_media_type_from_content_type wSt wGen "t6" "c1" "2024-08-13" "Aya"
     "visit" "" "Album2" "" "" [wUpMp4, wUpVid] (by decide)⟩

end Bosankai
